import Mathlib

/-!
Verification development for the personal-health-assistant workflow
(`src/index.ts`).  The program builds a two-node LangGraph state graph
(a pass-through supervisor node and a delegating health-agent node over a
single list-valued messages channel), routes on the authorship tag of the
last message, and streams one full-state snapshot per executed node.

Pure functions of the source (`routeLogic`, `supervisorNode`,
`callHealthAgentNode`, the messages-channel reducer, and the environment
check of `initializeEnvironmentAndLLM`) are embedded directly.  The graph
executor itself is the LangGraph library, which is not part of the
repository source; its loop is modelled from the specification (section
4.4) as a fuel-indexed step function over the concrete graph built by
`buildWorkflow`.
-/

namespace HealthAssistant

/-- Authorship tag of a conversational message.  In the source the tag is
the message class (`HumanMessage`, `AIMessage`, `SystemMessage`,
`ToolMessage`); `routeLogic` only ever tests membership in the
`HumanMessage` class via `instanceof`. -/
inductive MessageType where
  | human
  | ai
  | system
  | tool
deriving DecidableEq, Repr

/-- A conversational message: its class tag and its `content` field. -/
structure Message where
  mtype : MessageType
  content : String
deriving DecidableEq, Repr

/-- `interface AgentState { messages: BaseMessage[] }` -/
structure AgentState where
  messages : List Message
deriving DecidableEq, Repr

/-- A partial state update (`Partial<AgentState>`): the `messages` key is
either present with a delta list or absent. -/
structure StateUpdate where
  messages : Option (List Message)
deriving DecidableEq, Repr

/-- JavaScript `Array.prototype.concat`: a fresh array holding the
elements of `xs` followed by the elements of `ys`, modelled element by
element. -/
def jsArrayConcat {α : Type} : List α → List α → List α
  | [], ys => ys
  | x :: xs, ys => x :: jsArrayConcat xs ys

/-- The reducer of the `messages` channel in `buildWorkflow`:
`value: (x, y) => x.concat(y)`. -/
def mergeMessages (x y : List Message) : List Message :=
  jsArrayConcat x y

/-- The default-value factory of the `messages` channel in
`buildWorkflow`: `default: () => []`. -/
def messagesDefault : List Message := []

/-- The value `routeLogic` may return: the node name `'health_agent'` or
the terminal marker `END`. -/
inductive RouteTarget where
  | healthAgent
  | terminal
deriving DecidableEq, Repr

/-- `state.messages[state.messages.length - 1]`: the last element when the
array is non-empty, and `undefined` (here `none`) when it is empty, since
index `-1` is out of range in JavaScript. -/
def lastMessage (s : AgentState) : Option Message :=
  s.messages.getLast?

/-- `routeLogic` (src/index.ts lines 103-117): route to `'health_agent'`
when the last message is a `HumanMessage`, else to `END`.  On an empty
array the indexed value is `undefined`, and
`undefined instanceof HumanMessage` is `false`, so the `else` branch
returns `END`. -/
def routeLogic (state : AgentState) : RouteTarget :=
  match lastMessage state with
  | some m =>
      if m.mtype = MessageType.human then RouteTarget.healthAgent
      else RouteTarget.terminal
  | none => RouteTarget.terminal

/-- `supervisorNode` (src/index.ts lines 125-129): returns the empty
object `{}`, a partial update touching no channel. -/
def supervisorNode (_state : AgentState) : StateUpdate :=
  { messages := none }

/-- `callHealthAgentNode` (src/index.ts lines 87-95): invokes the agent
runnable on the current state and returns `{ messages: response.messages }`.
The external runnable is an oracle parameter from state to the response's
message list. -/
def callHealthAgentNode (agentRunnable : AgentState → List Message)
    (state : AgentState) : StateUpdate :=
  { messages := some (agentRunnable state) }

/-- Merging a task unit's partial update into the state: a channel absent
from the update is left untouched; a present delta is merged by the
channel's reducer. -/
def applyUpdate (s : AgentState) (u : StateUpdate) : AgentState :=
  match u.messages with
  | none => s
  | some delta => { messages := mergeMessages s.messages delta }

/-- The two registered node names of the graph built by `buildWorkflow`. -/
inductive NodeName where
  | supervisor
  | healthAgent
deriving DecidableEq, Repr

/-- The task unit bound to each node name by `workflow.addNode` in
`buildWorkflow`. -/
def runTask (agentRunnable : AgentState → List Message) :
    NodeName → AgentState → StateUpdate
  | NodeName.supervisor, s => supervisorNode s
  | NodeName.healthAgent, s => callHealthAgentNode agentRunnable s

/-- The edge table of `buildWorkflow`: a conditional edge from
`'supervisor'` through `routeLogic` with outcome map
`{ health_agent ↦ health_agent, END ↦ END }`, and a plain edge
`'health_agent' → 'supervisor'`.  `none` is the terminal marker. -/
def nextNode : NodeName → AgentState → Option NodeName
  | NodeName.supervisor, s =>
      match routeLogic s with
      | RouteTarget.healthAgent => some NodeName.healthAgent
      | RouteTarget.terminal => none
  | NodeName.healthAgent, _ => some NodeName.supervisor

/-- Modelled from the spec: the Graph Executor loop of section 4.4, which
is the LangGraph library and not part of the repository source.  Repeat:
invoke the current node's task unit, merge its update, emit a snapshot,
resolve the next node through the edge table, stop on the terminal marker.
Returns the trace of (executed node, snapshot after its merge) pairs and
whether the terminal marker was reached within the given fuel. -/
def runLoop (agentRunnable : AgentState → List Message) :
    Nat → NodeName → AgentState → List (NodeName × AgentState) × Bool
  | 0, _, _ => ([], false)
  | Nat.succ fuel, node, s =>
      match nextNode node (applyUpdate s (runTask agentRunnable node s)) with
      | none => ([(node, applyUpdate s (runTask agentRunnable node s))], true)
      | some node2 =>
          ((node, applyUpdate s (runTask agentRunnable node s)) ::
              (runLoop agentRunnable fuel node2
                (applyUpdate s (runTask agentRunnable node s))).fst,
            (runLoop agentRunnable fuel node2
              (applyUpdate s (runTask agentRunnable node s))).snd)

/-- Modelled from the spec: `runWorkflow` started on the compiled graph of
`buildWorkflow`, whose entry point is `'supervisor'`.  The initial state
is the caller's input merged over the channel default `[]`, which equals
the input itself. -/
def runWorkflow (agentRunnable : AgentState → List Message) (fuel : Nat)
    (initialState : AgentState) : List (NodeName × AgentState) × Bool :=
  runLoop agentRunnable fuel NodeName.supervisor initialState

/-- The State-Change Stream of a run (`streamMode: 'values'` per the
spec): one full-state snapshot per executed node, in execution order. -/
def snapshots (run : List (NodeName × AgentState) × Bool) :
    List AgentState :=
  run.fst.map Prod.snd

/-- The nodes a run executed, in execution order. -/
def executedNodes (run : List (NodeName × AgentState) × Bool) :
    List NodeName :=
  run.fst.map Prod.fst

/-- The three environment variables read by the startup code; each is a
string or `undefined`. -/
structure Env where
  ENDPOINT_ID : Option String
  ENDPOINT_API_KEY : Option String
  ARK_BASE_URL : Option String

/-- JavaScript falsiness of a string-typed environment variable: `!v` is
true exactly when the variable is `undefined` or the empty string. -/
def falsyEnvVar : Option String → Bool
  | none => true
  | some s => s == ""

/-- The fields handed to the `ChatOpenAI` constructor. -/
structure LLMConfig where
  apiKey : String
  model : String
  baseURL : String
deriving DecidableEq, Repr

/-- Outcome of startup configuration loading: `process.exit(code)` or a
constructed LLM client. -/
inductive InitResult where
  | exited (code : Nat)
  | ok (llm : LLMConfig)
deriving DecidableEq, Repr

/-- `initializeEnvironmentAndLLM` (src/index.ts lines 38-60): read the
three variables; if any is falsy, log and `process.exit(1)`; otherwise
construct the `ChatOpenAI` client from them. -/
def initEnvAndLLM (env : Env) : InitResult :=
  if falsyEnvVar env.ENDPOINT_ID || falsyEnvVar env.ENDPOINT_API_KEY ||
      falsyEnvVar env.ARK_BASE_URL then
    InitResult.exited 1
  else
    InitResult.ok
      { apiKey := env.ENDPOINT_API_KEY.getD ""
        model := env.ENDPOINT_ID.getD ""
        baseURL := env.ARK_BASE_URL.getD "" }

/-- Build a message tagged as direct user input. -/
def humanMsg (content : String) : Message :=
  { mtype := MessageType.human, content := content }

/-- Build an agent-authored message. -/
def aiMsg (content : String) : Message :=
  { mtype := MessageType.ai, content := content }

/-- The hardcoded initial input of `main`:
`{ messages: [new HumanMessage({ content: '你好啊' })] }`. -/
def initialInput : AgentState :=
  { messages := [humanMsg "你好啊"] }

/-- Outcome of `main`: an early `process.exit` before any graph activity,
or the snapshots streamed by the run. -/
inductive MainResult where
  | exitedEarly (code : Nat)
  | ran (snaps : List AgentState)
deriving DecidableEq, Repr

/-- `main` (src/index.ts lines 163-178): initialize the environment and
LLM first; only if that succeeds build the workflow and stream a run on
the hardcoded initial input. -/
def mainModel (env : Env) (agentRunnable : AgentState → List Message)
    (fuel : Nat) : MainResult :=
  match initEnvAndLLM env with
  | InitResult.exited c => MainResult.exitedEarly c
  | InitResult.ok _ =>
      MainResult.ran (snapshots (runWorkflow agentRunnable fuel initialInput))

/-- A concrete agent runnable used for witnesses: it always answers with a
single agent-authored message. -/
def demoAgent : AgentState → List Message :=
  fun _ => [aiMsg "hello"]

/-- A concrete initial state whose last (only) message is user-authored. -/
def initialHi : AgentState :=
  { messages := [humanMsg "hi"] }

theorem jsArrayConcat_eq_append {α : Type} (xs ys : List α) :
    jsArrayConcat xs ys = xs ++ ys := by
  induction xs with
  | nil => rfl
  | cons x xs ih => simp [jsArrayConcat, ih]

theorem routeLogic_eq_healthAgent_iff (s : AgentState) :
    routeLogic s = RouteTarget.healthAgent ↔
      Option.map Message.mtype (lastMessage s) = some MessageType.human := by
  unfold routeLogic
  cases h : lastMessage s with
  | none => simp
  | some m =>
      by_cases hm : m.mtype = MessageType.human <;> simp [hm]

theorem routeLogic_eq_terminal_iff (s : AgentState) :
    routeLogic s = RouteTarget.terminal ↔
      Option.map Message.mtype (lastMessage s) ≠ some MessageType.human := by
  unfold routeLogic
  cases h : lastMessage s with
  | none => simp
  | some m =>
      by_cases hm : m.mtype = MessageType.human <;> simp [hm]

theorem routeLogic_congr (s t : AgentState)
    (h : Option.map Message.mtype (lastMessage s) =
      Option.map Message.mtype (lastMessage t)) :
    routeLogic s = routeLogic t := by
  unfold routeLogic
  cases hs : lastMessage s with
  | none =>
      cases ht : lastMessage t with
      | none => rfl
      | some m => rw [hs, ht] at h; exact absurd h (by simp)
  | some m =>
      cases ht : lastMessage t with
      | none => rw [hs, ht] at h; exact absurd h (by simp)
      | some m2 =>
          rw [hs, ht] at h
          have hm : m.mtype = m2.mtype := by simpa using h
          simp [hm]

theorem supervisorStep (a : AgentState → List Message) (s : AgentState) :
    applyUpdate s (runTask a NodeName.supervisor s) = s := rfl

theorem healthStep (a : AgentState → List Message) (s : AgentState) :
    applyUpdate s (runTask a NodeName.healthAgent s) =
      { messages := mergeMessages s.messages (a s) } := rfl

theorem nextNode_supervisor_eq (s : AgentState) :
    nextNode NodeName.supervisor s =
      match routeLogic s with
      | RouteTarget.healthAgent => some NodeName.healthAgent
      | RouteTarget.terminal => none := rfl

theorem nextNode_supervisor_health (s : AgentState)
    (h : routeLogic s = RouteTarget.healthAgent) :
    nextNode NodeName.supervisor s = some NodeName.healthAgent := by
  rw [nextNode_supervisor_eq, h]

theorem nextNode_supervisor_terminal (s : AgentState)
    (h : routeLogic s = RouteTarget.terminal) :
    nextNode NodeName.supervisor s = none := by
  rw [nextNode_supervisor_eq, h]

theorem nextNode_health (s : AgentState) :
    nextNode NodeName.healthAgent s = some NodeName.supervisor := rfl

theorem run_three (a : AgentState → List Message) (init : AgentState)
    (hr1 : routeLogic init = RouteTarget.healthAgent)
    (hr2 : routeLogic { messages := mergeMessages init.messages (a init) } =
      RouteTarget.terminal) (k : Nat) :
    runLoop a (k + 3) NodeName.supervisor init =
      ([(NodeName.supervisor, init),
        (NodeName.healthAgent, { messages := mergeMessages init.messages (a init) }),
        (NodeName.supervisor, { messages := mergeMessages init.messages (a init) })],
        true) := by
  simp only [runLoop, supervisorStep, healthStep, nextNode_health,
    nextNode_supervisor_health _ hr1, nextNode_supervisor_terminal _ hr2]

/-- A snapshot extends another when its messages channel is the other's
with some delta merged at the end. -/
def GrowsTo (x y : AgentState) : Prop :=
  ∃ d, y.messages = x.messages ++ d

theorem applyUpdate_grows (s : AgentState) (u : StateUpdate) :
    GrowsTo s (applyUpdate s u) := by
  unfold applyUpdate
  cases u.messages with
  | none => exact ⟨[], by simp⟩
  | some delta => exact ⟨delta, by simp [mergeMessages, jsArrayConcat_eq_append]⟩

theorem runLoop_chain (a : AgentState → List Message) :
    ∀ (fuel : Nat) (node : NodeName) (s : AgentState),
      List.Chain GrowsTo s (snapshots (runLoop a fuel node s))
  | 0, _node, s => by
      simp only [runLoop, snapshots, List.map_nil]
      exact List.Chain.nil
  | fuel + 1, node, s => by
      unfold snapshots
      cases hn : nextNode node (applyUpdate s (runTask a node s)) with
      | none =>
          simp only [runLoop, hn, List.map_cons, List.map_nil]
          exact List.Chain.cons (applyUpdate_grows s _) List.Chain.nil
      | some node2 =>
          simp only [runLoop, hn, List.map_cons]
          refine List.Chain.cons (applyUpdate_grows s _) ?_
          have ih := runLoop_chain a fuel node2 (applyUpdate s (runTask a node s))
          simpa [snapshots] using ih

/-- C1 (amended): starting from a state whose last message is
user-authored, when the merged state after the delegating node's reply no
longer ends in a user-authored message, the run reaches the terminal
marker with the execution trace supervisor, health_agent, supervisor: the
delegating node executes exactly once and the State-Change Stream closes
after exactly 3 snapshots (not 2 — the plain edge sends the run back
through the supervisor, which executes and emits a third snapshot before
the router returns the terminal marker). -/
theorem c1_terminates_three_snapshots (agentRunnable : AgentState → List Message)
    (init : AgentState) (fuel : Nat) (hfuel : 3 ≤ fuel)
    (hhuman : Option.map Message.mtype (lastMessage init) = some MessageType.human)
    (hreply : Option.map Message.mtype
        (lastMessage { messages := mergeMessages init.messages (agentRunnable init) }) ≠
      some MessageType.human) :
    runWorkflow agentRunnable fuel init =
      ([(NodeName.supervisor, init),
        (NodeName.healthAgent,
          { messages := mergeMessages init.messages (agentRunnable init) }),
        (NodeName.supervisor,
          { messages := mergeMessages init.messages (agentRunnable init) })],
        true) ∧
    List.count NodeName.healthAgent
      (executedNodes (runWorkflow agentRunnable fuel init)) = 1 ∧
    (snapshots (runWorkflow agentRunnable fuel init)).length = 3 := by
  obtain ⟨k, rfl⟩ : ∃ k, fuel = k + 3 := ⟨fuel - 3, by omega⟩
  have hr1 : routeLogic init = RouteTarget.healthAgent :=
    (routeLogic_eq_healthAgent_iff init).mpr hhuman
  have hr2 : routeLogic { messages := mergeMessages init.messages (agentRunnable init) } =
      RouteTarget.terminal :=
    (routeLogic_eq_terminal_iff _).mpr hreply
  have hrun := run_three agentRunnable init hr1 hr2 k
  have hrw : runWorkflow agentRunnable (k + 3) init =
      runLoop agentRunnable (k + 3) NodeName.supervisor init := rfl
  rw [hrw, hrun]
  refine ⟨rfl, ?_, ?_⟩ <;> simp [executedNodes, snapshots]

theorem c1_terminates_three_snapshots_witness :
    List.count NodeName.healthAgent
      (executedNodes (runWorkflow demoAgent 10 initialHi)) = 1 ∧
    (snapshots (runWorkflow demoAgent 10 initialHi)).length = 3 :=
  ⟨(c1_terminates_three_snapshots demoAgent initialHi 10 (by norm_num)
      (by decide) (by decide)).2.1,
   (c1_terminates_three_snapshots demoAgent initialHi 10 (by norm_num)
      (by decide) (by decide)).2.2⟩

/-- C1 counterexample: on the concrete run of the spec's own worked
example (initial state one user message, agent replying one agent-authored
message) all the claim's hypotheses hold and the delegating node executes
exactly once, yet the stream closes after 3 snapshots, not 2. -/
theorem c1_two_snapshots_false :
    Option.map Message.mtype (lastMessage initialHi) = some MessageType.human ∧
    Option.map Message.mtype
        (lastMessage { messages := mergeMessages initialHi.messages (demoAgent initialHi) }) ≠
      some MessageType.human ∧
    List.count NodeName.healthAgent
      (executedNodes (runWorkflow demoAgent 10 initialHi)) = 1 ∧
    (runWorkflow demoAgent 10 initialHi).snd = true ∧
    (snapshots (runWorkflow demoAgent 10 initialHi)).length ≠ 2 := by
  decide

/-- C2: the router returns `'health_agent'` iff the last message of the
channel is a `HumanMessage`, returns the terminal marker `END` in every
other case, and its decision depends only on the authorship tag of the
last message: two states whose last messages carry the same tag (or are
both absent) route identically, whatever their message counts or
contents. -/
theorem c2_router_by_last_tag (s t : AgentState)
    (h : Option.map Message.mtype (lastMessage s) =
      Option.map Message.mtype (lastMessage t)) :
    (routeLogic s = RouteTarget.healthAgent ↔
      Option.map Message.mtype (lastMessage s) = some MessageType.human) ∧
    (routeLogic s = RouteTarget.terminal ↔
      Option.map Message.mtype (lastMessage s) ≠ some MessageType.human) ∧
    routeLogic s = routeLogic t :=
  ⟨routeLogic_eq_healthAgent_iff s, routeLogic_eq_terminal_iff s,
   routeLogic_congr s t h⟩

theorem c2_router_by_last_tag_witness :
    routeLogic initialHi = RouteTarget.healthAgent ∧
    routeLogic initialHi = routeLogic { messages := [aiMsg "yo", humanMsg "sup"] } :=
  ⟨(c2_router_by_last_tag initialHi initialHi rfl).1.mpr (by decide),
   (c2_router_by_last_tag initialHi { messages := [aiMsg "yo", humanMsg "sup"] }
      (by decide)).2.2⟩

/-- C3: the messages-channel reducer returns the current value with the
delta's elements appended at the end in order, with no deduplication and
no length cap: the merged length is the sum of the lengths. -/
theorem c3_merge_appends (A B : List Message) :
    mergeMessages A B = A ++ B ∧
    (mergeMessages A B).length = A.length + B.length := by
  have h := jsArrayConcat_eq_append A B
  refine ⟨h, ?_⟩
  rw [mergeMessages, h]
  exact List.length_append A B

/-- C5: the supervisor node returns an empty partial update touching no
channel, and merging that update leaves the state unchanged. -/
theorem c5_supervisor_identity (s : AgentState) :
    (supervisorNode s).messages = none ∧
    applyUpdate s (supervisorNode s) = s :=
  ⟨rfl, rfl⟩

/-- C6: the router is deterministic — on identical states it returns the
same label; it is a pure function of the state with no hidden inputs. -/
theorem c6_router_deterministic (s t : AgentState) (h : s = t) :
    routeLogic s = routeLogic t := by
  rw [h]

theorem c6_router_deterministic_witness :
    routeLogic initialHi = routeLogic initialHi :=
  c6_router_deterministic initialHi initialHi rfl

/-- C7: if any of the three required configuration variables is absent,
startup exits with status 1 — a non-zero status — before any graph
activity (main produces no run and no snapshot); if all three are present
with non-empty values (the only sense in which the source's falsiness
test accepts them), initialization constructs the LLM client without this
error. -/
theorem c7_config_gate (env : Env) (agentRunnable : AgentState → List Message)
    (fuel : Nat) :
    ((env.ENDPOINT_ID = none ∨ env.ENDPOINT_API_KEY = none ∨
        env.ARK_BASE_URL = none) →
      initEnvAndLLM env = InitResult.exited 1 ∧
      mainModel env agentRunnable fuel = MainResult.exitedEarly 1 ∧
      (1 : Nat) ≠ 0) ∧
    ((falsyEnvVar env.ENDPOINT_ID = false ∧
        falsyEnvVar env.ENDPOINT_API_KEY = false ∧
        falsyEnvVar env.ARK_BASE_URL = false) →
      ∃ llm, initEnvAndLLM env = InitResult.ok llm) := by
  constructor
  · intro hmiss
    have hinit : initEnvAndLLM env = InitResult.exited 1 := by
      unfold initEnvAndLLM
      rcases hmiss with h | h | h <;> rw [h] <;> simp [falsyEnvVar]
    refine ⟨hinit, ?_, by norm_num⟩
    unfold mainModel
    rw [hinit]
  · rintro ⟨h1, h2, h3⟩
    refine ⟨{ apiKey := env.ENDPOINT_API_KEY.getD "",
              model := env.ENDPOINT_ID.getD "",
              baseURL := env.ARK_BASE_URL.getD "" }, ?_⟩
    unfold initEnvAndLLM
    rw [h1, h2, h3]
    simp

/-- A concrete environment with one required variable absent. -/
def envMissing : Env :=
  { ENDPOINT_ID := none, ENDPOINT_API_KEY := some "k", ARK_BASE_URL := some "u" }

/-- A concrete environment with all three required variables present and
non-empty. -/
def envFull : Env :=
  { ENDPOINT_ID := some "ep", ENDPOINT_API_KEY := some "k",
    ARK_BASE_URL := some "u" }

theorem c7_config_gate_witness :
    (initEnvAndLLM envMissing = InitResult.exited 1 ∧
      mainModel envMissing demoAgent 10 = MainResult.exitedEarly 1 ∧
      (1 : Nat) ≠ 0) ∧
    ∃ llm, initEnvAndLLM envFull = InitResult.ok llm :=
  ⟨(c7_config_gate envMissing demoAgent 10).1 (Or.inl rfl),
   (c7_config_gate envFull demoAgent 10).2 ⟨by decide, by decide, by decide⟩⟩

/-- C8: the messages-channel reducer is associative and has the channel's
default value, the empty list, as left and right identity, so repeated
application in execution order is independent of how consecutive merges
are grouped. -/
theorem c8_merge_monoid (x y z : List Message) :
    mergeMessages messagesDefault y = y ∧
    mergeMessages x messagesDefault = x ∧
    mergeMessages (mergeMessages x y) z = mergeMessages x (mergeMessages y z) ∧
    messagesDefault = [] := by
  simp [mergeMessages, jsArrayConcat_eq_append, messagesDefault,
    List.append_assoc]

/-- C9: on an empty message channel the indexed last message is absent,
the `HumanMessage` test fails, the router returns the terminal marker, and
a run from such a state ends after the single supervisor step — the
delegating node never executes and the model's total functions raise no
error. -/
theorem c9_empty_channel_ends (s : AgentState) (h : s.messages = []) :
    lastMessage s = none ∧
    routeLogic s = RouteTarget.terminal ∧
    ∀ (agentRunnable : AgentState → List Message) (fuel : Nat), 1 ≤ fuel →
      runWorkflow agentRunnable fuel s = ([(NodeName.supervisor, s)], true) := by
  have hl : lastMessage s = none := by simp [lastMessage, h]
  have hr : routeLogic s = RouteTarget.terminal := by
    unfold routeLogic
    rw [hl]
  refine ⟨hl, hr, ?_⟩
  intro agentRunnable fuel hf
  obtain ⟨k, rfl⟩ : ∃ k, fuel = k + 1 := ⟨fuel - 1, by omega⟩
  have hrw : runWorkflow agentRunnable (k + 1) s =
      runLoop agentRunnable (k + 1) NodeName.supervisor s := rfl
  rw [hrw]
  simp only [runLoop, supervisorStep, nextNode_supervisor_terminal _ hr]

theorem c9_empty_channel_ends_witness :
    routeLogic { messages := ([] : List Message) } = RouteTarget.terminal ∧
    runWorkflow demoAgent 5 { messages := [] } =
      ([(NodeName.supervisor, { messages := [] })], true) :=
  ⟨(c9_empty_channel_ends { messages := [] } rfl).2.1,
   (c9_empty_channel_ends { messages := [] } rfl).2.2 demoAgent 5 (by norm_num)⟩

/-- C10: a health-agent step merges to exactly the pre-step messages
followed by the agent runnable's entire returned list; when that returned
list contains every pre-step message (as a ReAct agent's response, which
echoes its input, does), every pre-step message occurs at least twice in
the merged channel — the update is appended, never substituted. -/
theorem c10_agent_update_appended (agentRunnable : AgentState → List Message)
    (s : AgentState) (hcontain : ∀ m ∈ s.messages, m ∈ agentRunnable s) :
    applyUpdate s (callHealthAgentNode agentRunnable s) =
      { messages := s.messages ++ agentRunnable s } ∧
    ∀ m ∈ s.messages,
      2 ≤ List.count m (applyUpdate s (callHealthAgentNode agentRunnable s)).messages := by
  have happ : applyUpdate s (callHealthAgentNode agentRunnable s) =
      { messages := s.messages ++ agentRunnable s } := by
    simp [applyUpdate, callHealthAgentNode, mergeMessages, jsArrayConcat_eq_append]
  refine ⟨happ, ?_⟩
  intro m hm
  rw [happ]
  simp only [List.count_append]
  have h1 : 0 < List.count m s.messages := List.count_pos_iff.mpr hm
  have h2 : 0 < List.count m (agentRunnable s) :=
    List.count_pos_iff.mpr (hcontain m hm)
  omega

/-- A concrete ReAct-style agent runnable used for witnesses: its response
echoes the input messages followed by one new agent-authored message. -/
def reactDemoAgent : AgentState → List Message :=
  fun st => st.messages ++ [aiMsg "hello"]

theorem c10_agent_update_appended_witness :
    applyUpdate initialHi (callHealthAgentNode reactDemoAgent initialHi) =
      { messages := initialHi.messages ++ reactDemoAgent initialHi } ∧
    ∀ m ∈ initialHi.messages,
      2 ≤ List.count m
        (applyUpdate initialHi (callHealthAgentNode reactDemoAgent initialHi)).messages :=
  c10_agent_update_appended reactDemoAgent initialHi (by decide)

/-- C4 (amended): every run yields exactly one snapshot per executed node,
in execution order, and the messages channel grows monotonically — each
snapshot's channel extends the previous one's (and the first extends the
initial state's) by the deltas merged at that step.  Growth is not strict:
the supervisor's empty update leaves the channel unchanged. -/
theorem c4_snapshots_monotone (agentRunnable : AgentState → List Message)
    (fuel : Nat) (init : AgentState) :
    (snapshots (runWorkflow agentRunnable fuel init)).length =
      (executedNodes (runWorkflow agentRunnable fuel init)).length ∧
    List.Chain GrowsTo init (snapshots (runWorkflow agentRunnable fuel init)) := by
  constructor
  · simp [snapshots, executedNodes]
  · exact runLoop_chain agentRunnable fuel NodeName.supervisor init

/-- C4 counterexample: on the concrete worked-example run the snapshot
channel lengths are 1, 2, 2 — the third snapshot (the supervisor step
after the agent's reply) merges no new delta, so the channel does not grow
strictly from one snapshot to the next. -/
theorem c4_strict_growth_false :
    (snapshots (runWorkflow demoAgent 10 initialHi)).map
        (fun st => st.messages.length) = [1, 2, 2] ∧
    ¬ List.Chain (fun x y : AgentState => x.messages.length < y.messages.length)
        initialHi (snapshots (runWorkflow demoAgent 10 initialHi)) := by
  refine ⟨by rfl, ?_⟩
  intro hchain
  have hs : snapshots (runWorkflow demoAgent 10 initialHi) =
      [{ messages := [humanMsg "hi"] },
       { messages := [humanMsg "hi", aiMsg "hello"] },
       { messages := [humanMsg "hi", aiMsg "hello"] }] := by rfl
  rw [hs] at hchain
  cases hchain with
  | cons h1 t1 =>
    cases t1 with
    | cons h2 t2 =>
      cases t2 with
      | cons h3 _ => exact Nat.lt_irrefl _ h3

end HealthAssistant
